import Mathlib

/-
Verification development for the browser-based English-tutoring client
(WelcomeScreen / ConversationView / FeedbackView / geminiService / types).

The TypeScript sources are shallowly embedded: JavaScript strings become
`String` (manipulated through their `List Char` data so that everything
computes), the React component's mutable refs and state cells become the
fields of an explicit `SessionState` record, and each event handler of the
realtime session manager (`stopConversation`, `handleFailure`, `onopen`,
`onmessage`, `prepareFinalHistoryAndEnd`, the `setTimeout` callbacks and
the unmount cleanup) becomes a total state transformer.  `setTimeout`
scheduling is embedded by recording the pending timers (delay plus
captured payload) in the state, with separate "the timer fires now"
transformers; invocations of the `onEndLesson` callback handed to the
component are recorded in the state as the list of payloads delivered.
`try`/`catch` blocks whose handler ignores the error (as in
`stopConversation`) are embedded by the un-throwing result of the guarded
operation, which is what the source leaves behind.
-/

namespace EnglishLesson

/-! ### JavaScript string primitives

JS `String.prototype.includes` and `String.prototype.toLowerCase`,
embedded over the character data of a `String` so that they evaluate by
kernel reduction. -/

/-- JS `haystack.includes(pat)` on character lists: `pat` occurs as a
contiguous run. -/
def listIncludes (pat : List Char) : List Char → Bool
  | [] => pat.isEmpty
  | c :: cs => pat.isPrefixOf (c :: cs) || listIncludes pat cs

/-- JS `s.includes(pat)`. -/
def strIncludes (s pat : String) : Bool := listIncludes pat.data s.data

/-- JS `s.toLowerCase()` (the sources only ever compare ASCII text). -/
def lowerStr (s : String) : String := ⟨s.data.map Char.toLower⟩

/-! ### Data model (`types.ts`) -/

/-- The `speaker` field of `TranscriptionEntry`: `'user' | 'gemini'`. -/
inductive Speaker where
  | user
  | gemini
deriving DecidableEq, Repr

/-- `TranscriptionEntry` from `types.ts`. -/
structure TranscriptionEntry where
  id : String
  speaker : Speaker
  text : String
deriving DecidableEq, Repr

/-! ### Audio codec utilities

Modelled from the spec: the repository's `utils/audio.ts` (imported by
`ConversationView` for `encode`, `decode`, `decodeAudioData`) is not among
the provided source files.  The spec describes `encode` as a reversible
binary-safe byte-to-text transport encoding with `decode` its exact
inverse; the standard such transport encoding for realtime audio payloads
(the `data` field of the realtime input message) is base64, modelled here
over byte lists (`List Nat`, each element `< 256`) and character lists. -/

/-- The base64 alphabet. -/
def base64Table : List Char :=
  "ABCDEFGHIJKLMNOPQRSTUVWXYZabcdefghijklmnopqrstuvwxyz0123456789+/".data

/-- The base64 character of a sextet. -/
def b64Char (n : Nat) : Char := base64Table.getD n 'A'

/-- The sextet of a base64 character. -/
def b64Idx (c : Char) : Nat := base64Table.indexOf c

/-- Modelled from the spec: `encode(bytes) -> text`, base64 with `'='`
padding.  Three bytes become four sextet characters; a final group of one
or two bytes is padded. -/
def encode : List Nat → List Char
  | [] => []
  | [b0] => [b64Char (b0 / 4), b64Char (b0 % 4 * 16), '=', '=']
  | [b0, b1] =>
      [b64Char (b0 / 4), b64Char (b0 % 4 * 16 + b1 / 16), b64Char (b1 % 16 * 4), '=']
  | b0 :: b1 :: b2 :: rest =>
      b64Char (b0 / 4) :: b64Char (b0 % 4 * 16 + b1 / 16) ::
        b64Char (b1 % 16 * 4 + b2 / 64) :: b64Char (b2 % 64) :: encode rest

/-- Modelled from the spec: `decode(text) -> bytes`, the inverse of
`encode`.  A four-character group yields three bytes, or fewer at the
final padded group. -/
def decode : List Char → List Nat
  | c0 :: c1 :: c2 :: c3 :: rest =>
      if c2 = '=' then
        [b64Idx c0 * 4 + b64Idx c1 / 16]
      else if c3 = '=' then
        [b64Idx c0 * 4 + b64Idx c1 / 16, b64Idx c1 % 16 * 16 + b64Idx c2 / 4]
      else
        (b64Idx c0 * 4 + b64Idx c1 / 16) :: (b64Idx c1 % 16 * 16 + b64Idx c2 / 4) ::
          (b64Idx c2 % 4 * 64 + b64Idx c3) :: decode rest
  | _ => []

/-! ### Conversation session manager (`ConversationView`) -/

/-- `MAX_RECONNECT_ATTEMPTS` (line 18). -/
def MAX_RECONNECT_ATTEMPTS : Nat := 3

/-- `PARTING_WORDS` (line 19). -/
def PARTING_WORDS : List String := ["goodbye", "good bye", "see you", "lesson is over"]

/-- The `connectionState` React state:
`'idle' | 'connecting' | 'connected' | 'reconnecting' | 'error'`. -/
inductive ConnectionState where
  | idle
  | connecting
  | connected
  | reconnecting
  | error
deriving DecidableEq, Repr

/-- The component's mutable cells (React state plus refs), together with
the embedded timer queues and the record of `onEndLesson` invocations.

Resource handles carry no behaviour the claims depend on beyond being
held or released, so they are embedded by their occupancy: `Bool` for a
nullable ref (`true` = non-null), `Option Bool` for a nullable
`AudioContext` ref (`some true` = open, `some false` = closed), and the
tracked `audioSources` set by its size.  `currentUserTranscript` /
`currentGeminiTranscript` stand for both the React state cell and the
paired ref the handlers read (`currentUserTranscriptRef` /
`currentGeminiTranscriptRef`), which the source keeps in lockstep. -/
structure SessionState where
  transcriptionHistory : List TranscriptionEntry
  currentUserTranscript : String
  currentGeminiTranscript : String
  connectionState : ConnectionState
  connectionError : Option String
  sessionPromise : Bool
  mediaStream : Bool
  inputAudioContext : Option Bool
  mediaStreamSource : Bool
  scriptProcessor : Bool
  outputAudioContext : Option Bool
  audioSources : Nat
  nextStartTime : ℚ
  reconnectAttempts : Nat
  startConversationRefSet : Bool
  pendingReconnects : List Nat
  totalReconnectsScheduled : Nat
  pendingEnds : List (Nat × List TranscriptionEntry)
  onEndCalls : List (List TranscriptionEntry)
deriving DecidableEq, Repr

/-- The component's state at mount: empty history and buffers, `idle`,
no error, every ref `null`, cursor `0`, attempt counter `0`, no timers
pending, the parent callback never yet invoked. -/
def initialState : SessionState where
  transcriptionHistory := []
  currentUserTranscript := ""
  currentGeminiTranscript := ""
  connectionState := ConnectionState.idle
  connectionError := none
  sessionPromise := false
  mediaStream := false
  inputAudioContext := none
  mediaStreamSource := false
  scriptProcessor := false
  outputAudioContext := none
  audioSources := 0
  nextStartTime := 0
  reconnectAttempts := 0
  startConversationRefSet := false
  pendingReconnects := []
  totalReconnectsScheduled := 0
  pendingEnds := []
  onEndCalls := []

/-- `stopConversation(isFinalCleanup)` (lines 51-90): optionally reset the
visible state to `idle`, then close-and-null the session promise, stop
and null the media stream, disconnect and null both capture graph nodes
(their `try`/`catch` swallows any failure), close both audio contexts if
not already closed (the refs themselves are not nulled), forcibly stop
every tracked playback source and clear the set, and zero the playback
cursor. -/
def stopConversation (isFinalCleanup : Bool) (s : SessionState) : SessionState :=
  let s := if isFinalCleanup then { s with connectionState := ConnectionState.idle } else s
  let s := { s with sessionPromise := false }
  let s := { s with mediaStream := false }
  let s := { s with mediaStreamSource := false }
  let s := { s with scriptProcessor := false }
  let s := { s with inputAudioContext := s.inputAudioContext.map fun _ => false }
  let s := { s with outputAudioContext := s.outputAudioContext.map fun _ => false }
  { s with audioSources := 0, nextStartTime := 0 }

/-- `handleEndLesson(finalHistory)` (lines 92-94): invoke the parent's
`onEndLesson` callback with the given history (recorded as a delivered
payload). -/
def handleEndLesson (finalHistory : List TranscriptionEntry) (s : SessionState) : SessionState :=
  { s with onEndCalls := s.onEndCalls ++ [finalHistory] }

/-- `handleFailure(error)` (lines 96-110): synchronous cleanup via
`stopConversation(false)`; then, below the attempt ceiling, increment the
counter, show `reconnecting` and schedule a reconnect after
`2^(attempts-1) * 1000` ms; at the ceiling, show terminal `error` with
the causing message. -/
def handleFailure (err : Option String) (s : SessionState) : SessionState :=
  let s := stopConversation false s
  if s.reconnectAttempts < MAX_RECONNECT_ATTEMPTS then
    let attempts := s.reconnectAttempts + 1
    { s with reconnectAttempts := attempts
             connectionState := ConnectionState.reconnecting
             pendingReconnects := s.pendingReconnects ++ [2 ^ (attempts - 1) * 1000]
             totalReconnectsScheduled := s.totalReconnectsScheduled + 1 }
  else
    { s with connectionState := ConnectionState.error
             connectionError := some (err.getD "Connection failed after multiple attempts.") }

/-- The synchronous prefix of `startConversation` (lines 112-120) up to a
successful microphone/output-context acquisition: internal cleanup, clear
the error, show `reconnecting` or `connecting` by the attempt counter,
and take the stream, output context and session promise. -/
def startConversationBegin (s : SessionState) : SessionState :=
  let s := stopConversation false s
  { s with connectionError := none
           connectionState :=
             if s.reconnectAttempts > 0 then ConnectionState.reconnecting
             else ConnectionState.connecting
           mediaStream := true
           outputAudioContext := some true
           sessionPromise := true }

/-- The `onopen` callback (lines 143-168): show `connected`, reset the
attempt counter, build the capture graph. -/
def onopen (s : SessionState) : SessionState :=
  { s with connectionState := ConnectionState.connected
           reconnectAttempts := 0
           inputAudioContext := some true
           mediaStreamSource := true
           scriptProcessor := true }

/-- One inbound `LiveServerMessage`, reduced to the four signals
`onmessage` reads: the two transcript overwrite fragments, the
turn-complete flag, and the audio payload.  The base64 audio payload is
abstracted to the decoded buffer's duration in seconds, which is all the
playback scheduling consumes. -/
structure LiveServerMessage where
  inputTranscription : Option String := none
  outputTranscription : Option String := none
  turnComplete : Bool := false
  audioDuration : Option ℚ := none
deriving DecidableEq, Repr

/-- The playback start time the scheduler picks (line 210):
`max(outputAudioContext.currentTime, nextStartTime)`. -/
def scheduledStart (currentTime : ℚ) (s : SessionState) : ℚ :=
  max currentTime s.nextStartTime

/-- The turn-complete block of `onmessage` (lines 180-201): commit the
non-empty partial buffers as history entries (student first) and clear
both; if the committed tutor text, lower-cased, includes a parting word,
schedule `handleEndLesson` on the new history after 2000 ms. -/
def commitTurn (now : Nat) (s : SessionState) : SessionState :=
  let fullInput := s.currentUserTranscript
  let fullOutput := s.currentGeminiTranscript
  let newHistory :=
    s.transcriptionHistory
      ++ (if fullInput != "" then
            [{ id := "user-" ++ toString now, speaker := Speaker.user,
               text := fullInput }]
          else [])
      ++ (if fullOutput != "" then
            [{ id := "gemini-" ++ toString now, speaker := Speaker.gemini,
               text := fullOutput }]
          else [])
  let pend :=
    if PARTING_WORDS.any fun word => strIncludes (lowerStr fullOutput) word then
      s.pendingEnds ++ [(2000, newHistory)]
    else s.pendingEnds
  { s with transcriptionHistory := newHistory
           pendingEnds := pend
           currentUserTranscript := ""
           currentGeminiTranscript := "" }

/-- The audio block of `onmessage` (lines 202-217): when an audio payload
arrived and the playback context ref is non-null, schedule the decoded
buffer at `scheduledStart`, advance the cursor by its duration and track
the source. -/
def scheduleAudio (currentTime d : ℚ) (s : SessionState) : SessionState :=
  if s.outputAudioContext.isSome then
    { s with nextStartTime := scheduledStart currentTime s + d
             audioSources := s.audioSources + 1 }
  else s

/-- The `onmessage` callback (lines 170-222), happy path (a processing
exception instead routes the message to `handleFailure`).  `now` is
`Date.now()` at commit time; `currentTime` is the playback context's
clock when the audio chunk is scheduled.  In order: overwrite the student
partial buffer, overwrite the tutor partial buffer, on turn-complete run
`commitTurn`, then schedule any audio payload via `scheduleAudio`. -/
def onmessage (now : Nat) (currentTime : ℚ) (msg : LiveServerMessage)
    (s : SessionState) : SessionState :=
  let s :=
    match msg.inputTranscription with
    | some t => { s with currentUserTranscript := t }
    | none => s
  let s :=
    match msg.outputTranscription with
    | some t => { s with currentGeminiTranscript := t }
    | none => s
  let s := if msg.turnComplete then commitTurn now s else s
  match msg.audioDuration with
  | some d => scheduleAudio currentTime d s
  | none => s

/-- The `onclose` callback (lines 226-230): only an unclean close is a
failure. -/
def onclose (wasClean : Bool) (err : Option String) (s : SessionState) : SessionState :=
  if wasClean then s else handleFailure err s

/-- `prepareFinalHistoryAndEnd` (lines 248-254), the End Lesson / back
button handler: the committed log plus, if non-empty, the uncommitted
student partial as one final entry, handed to `handleEndLesson`. -/
def prepareFinalHistoryAndEnd (s : SessionState) : SessionState :=
  let finalHistory :=
    s.transcriptionHistory
      ++ (if s.currentUserTranscript != "" then
            [{ id := "current-user", speaker := Speaker.user,
               text := s.currentUserTranscript }]
          else [])
  handleEndLesson finalHistory s

/-- A pending end-of-lesson timer (scheduled at line 190) fires: the
callback body is `handleEndLesson(newHistory)`, with no guard of any
kind. -/
def fireEndTimer (s : SessionState) : SessionState :=
  match s.pendingEnds with
  | [] => s
  | (_, payload) :: rest => handleEndLesson payload { s with pendingEnds := rest }

/-- A pending backoff timer (scheduled at line 104) fires: the callback
body is `startConversationRef.current?.()`, so it is a no-op exactly when
that ref is `null` (nothing ever nulls it). -/
def fireReconnectTimer (s : SessionState) : SessionState :=
  match s.pendingReconnects with
  | [] => s
  | _ :: rest =>
      let s := { s with pendingReconnects := rest }
      if s.startConversationRefSet then startConversationBegin s else s

/-- The mount effect (lines 240-246): store `startConversation` in the
ref, then start the conversation. -/
def mountEffect (s : SessionState) : SessionState :=
  startConversationBegin { s with startConversationRefSet := true }

/-- The unmount cleanup (lines 243-245): `stopConversation(true)`.  It
neither cancels pending timers nor clears `startConversationRef`. -/
def unmountCleanup (s : SessionState) : SessionState :=
  stopConversation true s

/-! ### Feedback provider (`geminiService.generateFeedback`) -/

/-- The fixed empty-log reply (line 58). -/
def noConversationMessage : String :=
  "There was no conversation to analyze. Let's try another lesson!"

/-- The fixed failure fallback (line 94). -/
def feedbackFallbackMessage : String :=
  "Sorry, I was unable to generate feedback for this session. Please try again next time."

/-- The transcript block of the feedback prompt (lines 63-65). -/
def transcriptText (history : List TranscriptionEntry) : String :=
  String.intercalate "\n"
    (history.map fun entry =>
      (if entry.speaker = Speaker.user then "Student" else "Tutor") ++ ": " ++ entry.text)

/-- `generateFeedback(history)` (lines 56-96).  The network interaction
(`ai.models.generateContent` on the assembled prompt) is abstracted by
the `net` argument; the surrounding `try`/`catch` converts any failure to
the fixed fallback.  The second component records whether a network call
was made at all. -/
def generateFeedback (net : String → Except String String)
    (history : List TranscriptionEntry) : String × Bool :=
  if history.length = 0 then
    (noConversationMessage, false)
  else
    match net (transcriptText history) with
    | Except.ok text => (text, true)
    | Except.error _ => (feedbackFallbackMessage, true)

/-! ### Event-sequence helpers and concrete states -/

/-- A message carrying only the turn-complete signal. -/
def turnCompleteMsg : LiveServerMessage where
  turnComplete := true

/-- A message carrying only an audio payload of duration `d` seconds. -/
def audioMsg (d : ℚ) : LiveServerMessage where
  audioDuration := some d

/-- Handling a sequence of inbound messages in arrival order. -/
def runMessages (now : Nat) (ct : ℚ) (s : SessionState)
    (msgs : List LiveServerMessage) : SessionState :=
  msgs.foldl (fun st m => onmessage now ct m st) s

/-- The (start time, duration) pairs the session schedules for a sequence
of arriving audio buffers, each paired with the playback clock's reading
at its arrival. -/
def scheduledPairs (now : Nat) (s : SessionState) : List (ℚ × ℚ) → List (ℚ × ℚ)
  | [] => []
  | (ct, d) :: rest =>
      (scheduledStart ct s, d) ::
        scheduledPairs now (onmessage now ct (audioMsg d) s) rest

/-- The initial state once the playback context exists. -/
def ctxState : SessionState := { initialState with outputAudioContext := some true }

/-- A state whose tutor partial buffer holds the committed-to-be text
"goodbye". -/
def goodbyeState : SessionState := { initialState with currentGeminiTranscript := "goodbye" }

/-- A concrete component state whose playback cursor has advanced to 1
second. -/
def cursorOneState : SessionState := { initialState with nextStartTime := 1 }

/-! ### Helper lemmas -/

/-- Every sextet names its own alphabet character: decoding inverts the
character table below 64. -/
lemma b64Idx_b64Char : ∀ n < 64, b64Idx (b64Char n) = n := by decide

/-- No alphabet character is the padding character. -/
lemma b64Char_ne_pad : ∀ n < 64, b64Char n ≠ '=' := by decide

/-- C6: for every byte sequence `b` (each element below 256), including
the empty sequence, `decode (encode b) = b`: the transport encoding is
lossless and `decode` is its exact inverse. -/
theorem C6_decode_encode : ∀ bs : List Nat, (∀ b ∈ bs, b < 256) → decode (encode bs) = bs
  | [], _ => rfl
  | [b0], h => by
      have hb0 : b0 < 256 := h b0 (by simp)
      have h0 : b0 / 4 < 64 := by omega
      have h1 : b0 % 4 * 16 < 64 := by omega
      show decode [b64Char (b0 / 4), b64Char (b0 % 4 * 16), '=', '='] = [b0]
      rw [decode, if_pos rfl, b64Idx_b64Char _ h0, b64Idx_b64Char _ h1]
      have : b0 / 4 * 4 + b0 % 4 * 16 / 16 = b0 := by omega
      rw [this]
  | [b0, b1], h => by
      have hb0 : b0 < 256 := h b0 (by simp)
      have hb1 : b1 < 256 := h b1 (by simp)
      have h0 : b0 / 4 < 64 := by omega
      have h1 : b0 % 4 * 16 + b1 / 16 < 64 := by omega
      have h2 : b1 % 16 * 4 < 64 := by omega
      show decode [b64Char (b0 / 4), b64Char (b0 % 4 * 16 + b1 / 16),
          b64Char (b1 % 16 * 4), '='] = [b0, b1]
      rw [decode, if_neg (b64Char_ne_pad _ h2), if_pos rfl,
        b64Idx_b64Char _ h0, b64Idx_b64Char _ h1, b64Idx_b64Char _ h2]
      have e0 : b0 / 4 * 4 + (b0 % 4 * 16 + b1 / 16) / 16 = b0 := by omega
      have e1 : (b0 % 4 * 16 + b1 / 16) % 16 * 16 + b1 % 16 * 4 / 4 = b1 := by omega
      rw [e0, e1]
  | b0 :: b1 :: b2 :: rest, h => by
      have hb0 : b0 < 256 := h b0 (by simp)
      have hb1 : b1 < 256 := h b1 (by simp)
      have hb2 : b2 < 256 := h b2 (by simp)
      have h0 : b0 / 4 < 64 := by omega
      have h1 : b0 % 4 * 16 + b1 / 16 < 64 := by omega
      have h2 : b1 % 16 * 4 + b2 / 64 < 64 := by omega
      have h3 : b2 % 64 < 64 := by omega
      have ih := C6_decode_encode rest (fun b hb => h b (by simp [hb]))
      show decode (b64Char (b0 / 4) :: b64Char (b0 % 4 * 16 + b1 / 16) ::
          b64Char (b1 % 16 * 4 + b2 / 64) :: b64Char (b2 % 64) :: encode rest)
        = b0 :: b1 :: b2 :: rest
      rw [decode, if_neg (b64Char_ne_pad _ h2), if_neg (b64Char_ne_pad _ h3),
        b64Idx_b64Char _ h0, b64Idx_b64Char _ h1, b64Idx_b64Char _ h2,
        b64Idx_b64Char _ h3, ih]
      have e0 : b0 / 4 * 4 + (b0 % 4 * 16 + b1 / 16) / 16 = b0 := by omega
      have e1 : (b0 % 4 * 16 + b1 / 16) % 16 * 16 + (b1 % 16 * 4 + b2 / 64) / 4 = b1 := by
        omega
      have e2 : (b1 % 16 * 4 + b2 / 64) % 4 * 64 + b2 % 64 = b2 := by omega
      rw [e0, e1, e2]

/-- C6 witness: the round trip at the empty sequence and at a concrete
five-byte sequence. -/
theorem C6_decode_encode_witness :
    decode (encode []) = [] ∧
    decode (encode [77, 97, 110, 255, 0]) = [77, 97, 110, 255, 0] :=
  ⟨C6_decode_encode [] (by decide), C6_decode_encode [77, 97, 110, 255, 0] (by decide)⟩

/-- C7: `stopConversation` is idempotent, total on the never-acquired
initial state (the all-`try`/`catch` body cannot raise, embedded by a
total transformer), and afterwards the session handle, capture stream,
capture graph nodes and tracked playback sources are cleared and the
playback cursor is zero. -/
theorem C7_stopConversation_idempotent (b : Bool) (s : SessionState) :
    stopConversation b (stopConversation b s) = stopConversation b s ∧
    (stopConversation b s).sessionPromise = false ∧
    (stopConversation b s).mediaStream = false ∧
    (stopConversation b s).mediaStreamSource = false ∧
    (stopConversation b s).scriptProcessor = false ∧
    (stopConversation b s).audioSources = 0 ∧
    (stopConversation b s).nextStartTime = 0 ∧
    stopConversation true initialState = initialState := by
  refine ⟨?_, rfl, rfl, rfl, rfl, rfl, rfl, by decide⟩
  cases b <;> cases h1 : s.inputAudioContext <;> cases h2 : s.outputAudioContext <;>
    simp [stopConversation, h1, h2]

/-- C10: `generateFeedback` answers the empty log with the fixed
"nothing to analyze" message without any network call, and converts any
failure of the underlying generation into the fixed fallback string
instead of propagating it. -/
theorem C10_generateFeedback (net : String → Except String String) (err : String)
    (history : List TranscriptionEntry) (hne : history ≠ []) :
    generateFeedback net [] = (noConversationMessage, false) ∧
    generateFeedback (fun _ => Except.error err) history = (feedbackFallbackMessage, true) := by
  refine ⟨rfl, ?_⟩
  have hl : history.length ≠ 0 := by simpa using hne
  simp [generateFeedback, hl]

/-- C10 witness: the empty log and a failing generation on a one-entry
log. -/
theorem C10_generateFeedback_witness :
    generateFeedback (fun _ => Except.ok "fine") [] = (noConversationMessage, false) ∧
    generateFeedback (fun _ => Except.error "boom")
        [{ id := "e1", speaker := Speaker.user, text := "hi" }]
      = (feedbackFallbackMessage, true) :=
  C10_generateFeedback (fun _ => Except.ok "fine") "boom"
    [{ id := "e1", speaker := Speaker.user, text := "hi" }] (by decide)

/-- Handling any message leaves the reconnect attempt counter alone. -/
lemma onmessage_reconnectAttempts (now : Nat) (ct : ℚ) (msg : LiveServerMessage)
    (s : SessionState) : (onmessage now ct msg s).reconnectAttempts = s.reconnectAttempts := by
  rcases msg with ⟨it, ot, tc, ad⟩
  cases it <;> cases ot <;> cases tc <;> cases ad <;>
    simp [onmessage, commitTurn, scheduleAudio, apply_ite SessionState.reconnectAttempts]

/-- `handleFailure` below the attempt ceiling: increment, `reconnecting`,
one more scheduled backoff timer. -/
lemma handleFailure_below (err : Option String) (s : SessionState)
    (h : s.reconnectAttempts < MAX_RECONNECT_ATTEMPTS) :
    handleFailure err s =
      { stopConversation false s with
          reconnectAttempts := s.reconnectAttempts + 1
          connectionState := ConnectionState.reconnecting
          pendingReconnects := s.pendingReconnects ++ [2 ^ (s.reconnectAttempts + 1 - 1) * 1000]
          totalReconnectsScheduled := s.totalReconnectsScheduled + 1 } := by
  simp only [handleFailure]
  split
  · rfl
  · next hn => exact absurd h hn

/-- `handleFailure` at the attempt ceiling: terminal `error`, counter and
timer bookkeeping untouched. -/
lemma handleFailure_at_max (err : Option String) (s : SessionState)
    (h : MAX_RECONNECT_ATTEMPTS ≤ s.reconnectAttempts) :
    handleFailure err s =
      { stopConversation false s with
          connectionState := ConnectionState.error
          connectionError := some (err.getD "Connection failed after multiple attempts.") } := by
  simp only [handleFailure]
  split
  · next hlt => exact absurd hlt (Nat.not_lt.mpr h)
  · rfl

/-- C2 counterexample: three failure events in a row from the initial
state leave the machine in `reconnecting` — not in terminal `error` —
with the counter at 3 and a third reconnect scheduled. -/
theorem C2_counterexample :
    (handleFailure none (handleFailure none (handleFailure none initialState))).connectionState
        = ConnectionState.reconnecting ∧
    (handleFailure none (handleFailure none (handleFailure none initialState))).connectionState
        ≠ ConnectionState.error ∧
    (handleFailure none (handleFailure none (handleFailure none initialState))).reconnectAttempts
        = 3 ∧
    (handleFailure none (handleFailure none (handleFailure none initialState))).totalReconnectsScheduled
        = 3 := by decide

/-- C2 (amended): the counter starts at 0; a failure below the maximum
increments it by exactly 1, shows `reconnecting` and schedules one more
reconnect; a failure at the maximum leaves the counter and the schedule
untouched and transitions to terminal `error`; `connected` resets the
counter to 0 and no other operation resets it; three failures in a row
leave `reconnecting` with counter 3 and a third reconnect scheduled, and
the fourth failure yields terminal `error`, counter 3, with no fourth
reconnect scheduled. -/
theorem C2_reconnect_counter (s : SessionState) (err : Option String)
    (now : Nat) (ct : ℚ) (msg : LiveServerMessage) :
    initialState.reconnectAttempts = 0 ∧
    (s.reconnectAttempts < MAX_RECONNECT_ATTEMPTS →
      (handleFailure err s).reconnectAttempts = s.reconnectAttempts + 1 ∧
      (handleFailure err s).connectionState = ConnectionState.reconnecting ∧
      (handleFailure err s).totalReconnectsScheduled = s.totalReconnectsScheduled + 1) ∧
    (MAX_RECONNECT_ATTEMPTS ≤ s.reconnectAttempts →
      (handleFailure err s).reconnectAttempts = s.reconnectAttempts ∧
      (handleFailure err s).connectionState = ConnectionState.error ∧
      (handleFailure err s).totalReconnectsScheduled = s.totalReconnectsScheduled) ∧
    (onopen s).connectionState = ConnectionState.connected ∧
    (onopen s).reconnectAttempts = 0 ∧
    (stopConversation true s).reconnectAttempts = s.reconnectAttempts ∧
    (onmessage now ct msg s).reconnectAttempts = s.reconnectAttempts ∧
    (s.reconnectAttempts ≠ 0 → (handleFailure err s).reconnectAttempts ≠ 0) ∧
    ((handleFailure none (handleFailure none (handleFailure none initialState))).reconnectAttempts
        = 3 ∧
     (handleFailure none (handleFailure none (handleFailure none initialState))).connectionState
        = ConnectionState.reconnecting ∧
     (handleFailure none (handleFailure none (handleFailure none
        (handleFailure none initialState)))).connectionState = ConnectionState.error ∧
     (handleFailure none (handleFailure none (handleFailure none
        (handleFailure none initialState)))).reconnectAttempts = 3 ∧
     (handleFailure none (handleFailure none (handleFailure none
        (handleFailure none initialState)))).totalReconnectsScheduled = 3) := by
  refine ⟨rfl, ?_, ?_, rfl, rfl, rfl, onmessage_reconnectAttempts now ct msg s, ?_, by decide⟩
  · intro h
    rw [handleFailure_below err s h]
    exact ⟨rfl, rfl, rfl⟩
  · intro h
    rw [handleFailure_at_max err s h]
    exact ⟨rfl, rfl, rfl⟩
  · intro h
    rcases Nat.lt_or_ge s.reconnectAttempts MAX_RECONNECT_ATTEMPTS with hlt | hge
    · rw [handleFailure_below err s hlt]
      exact Nat.succ_ne_zero _
    · rw [handleFailure_at_max err s hge]
      exact h

/-- C2 witness: the first failure takes the counter from 0 to 1, and a
successful open resets it to 0. -/
theorem C2_reconnect_counter_witness :
    (handleFailure none initialState).reconnectAttempts = 1 ∧
    (onopen (handleFailure none initialState)).reconnectAttempts = 0 := by
  have h := C2_reconnect_counter initialState none 0 0 ⟨none, none, false, none⟩
  have h' := C2_reconnect_counter (handleFailure none initialState) none 0 0
    ⟨none, none, false, none⟩
  exact ⟨(h.2.1 (by decide)).1, h'.2.2.2.2.1⟩

/-- A scheduled buffer of nonnegative duration never pulls the cursor
back. -/
lemma scheduleAudio_nextStartTime_ge (ct d : ℚ) (s : SessionState) (hd : 0 ≤ d) :
    s.nextStartTime ≤ (scheduleAudio ct d s).nextStartTime := by
  simp only [scheduleAudio, scheduledStart, apply_ite SessionState.nextStartTime]
  split
  · exact le_trans (le_max_right ct _) (le_add_of_nonneg_right hd)
  · exact le_rfl

/-- C4 counterexample: teardown strictly decreases a positive playback
cursor (it resets it to zero), so not every session-manager operation
leaves the cursor `≥` its previous value. -/
theorem C4_counterexample :
    (stopConversation true cursorOneState).nextStartTime < cursorOneState.nextStartTime := by
  decide

/-- C4 (amended): the playback cursor never decreases under message
handling — audio scheduling advances it by the buffer's (nonnegative)
duration, every other message leaves it unchanged — and `onopen` leaves
it unchanged; teardown, and failure handling (which performs teardown),
instead reset it to zero. -/
theorem C4_cursor (s : SessionState) (now : Nat) (ct d : ℚ) (msg : LiveServerMessage)
    (b : Bool) (err : Option String) :
    (msg.audioDuration = some d → 0 ≤ d →
      s.nextStartTime ≤ (onmessage now ct msg s).nextStartTime) ∧
    (msg.audioDuration = none → (onmessage now ct msg s).nextStartTime = s.nextStartTime) ∧
    (onopen s).nextStartTime = s.nextStartTime ∧
    (stopConversation b s).nextStartTime = 0 ∧
    (handleFailure err s).nextStartTime = 0 ∧
    (unmountCleanup s).nextStartTime = 0 := by
  rcases msg with ⟨it, ot, tc, ad⟩
  refine ⟨?_, ?_, rfl, rfl, ?_, rfl⟩
  · intro had hd
    cases ad with
    | none => simp at had
    | some d' =>
        have hd' : 0 ≤ d' := by rw [show d' = d from by injection had]; exact hd
        cases it <;> cases ot <;> cases tc <;>
          exact scheduleAudio_nextStartTime_ge ct d' _ hd'
  · intro had
    cases ad with
    | some d' => simp at had
    | none => cases it <;> cases ot <;> cases tc <;> rfl
  · simp only [handleFailure]
    split <;> rfl

/-- C4 witness: scheduling a 2-second buffer does not decrease the
1-second cursor, and teardown zeroes it. -/
theorem C4_cursor_witness :
    cursorOneState.nextStartTime
        ≤ (onmessage 0 0 ⟨none, none, false, some 2⟩ cursorOneState).nextStartTime ∧
    (stopConversation true cursorOneState).nextStartTime = 0 :=
  ⟨(C4_cursor cursorOneState 0 0 2 ⟨none, none, false, some 2⟩ true none).1 rfl (by norm_num),
   (C4_cursor cursorOneState 0 0 2 ⟨none, none, false, some 2⟩ true none).2.2.2.1⟩

/-- C8: the lesson-ended callback is NOT fired exactly once per session
lifetime.  Concrete execution: the tutor's committed turn says "goodbye",
which schedules the end-of-lesson timer; the user presses End Lesson
before it fires; the timer then fires.  The surrounding application's
`onEndLesson` is invoked twice. -/
theorem C8_onEndLesson_twice :
    ((fireEndTimer (prepareFinalHistoryAndEnd
        (onmessage 1 0 ⟨none, none, true, none⟩
          (onmessage 0 0 ⟨none, some "goodbye", false, none⟩
            (onopen (mountEffect initialState)))))).onEndCalls).length = 2 := by
  decide

/-- C9: timer callbacks are NOT guarded against firing after teardown.
Left: after a failure schedules a backoff timer and the unmount cleanup
runs (state back to `idle`), the timer still fires a full connect
sequence (`startConversationRef` was never cleared), leaving `idle` and
re-acquiring capture and session resources.  Right: after a "goodbye"
turn schedules the end-of-lesson timer and the unmount cleanup runs with
the callback never yet invoked, the timer still fires `handleEndLesson`
— the callback body checks nothing. -/
theorem C9_timer_guards_missing :
    ((unmountCleanup (handleFailure none (mountEffect initialState))).connectionState
        = ConnectionState.idle ∧
     (fireReconnectTimer (unmountCleanup (handleFailure none
        (mountEffect initialState)))).connectionState = ConnectionState.reconnecting ∧
     (fireReconnectTimer (unmountCleanup (handleFailure none
        (mountEffect initialState)))).mediaStream = true ∧
     (fireReconnectTimer (unmountCleanup (handleFailure none
        (mountEffect initialState)))).sessionPromise = true) ∧
    ((unmountCleanup (onmessage 1 0 ⟨none, none, true, none⟩
        (onmessage 0 0 ⟨none, some "goodbye", false, none⟩
          (onopen (mountEffect initialState))))).onEndCalls = [] ∧
     ((fireEndTimer (unmountCleanup (onmessage 1 0 ⟨none, none, true, none⟩
        (onmessage 0 0 ⟨none, some "goodbye", false, none⟩
          (onopen (mountEffect initialState)))))).onEndCalls).length = 1) := by
  decide

/-- A message with neither turn-complete nor audio leaves the committed
log untouched. -/
lemma onmessage_transcript_only (now : Nat) (ct : ℚ) (m : LiveServerMessage)
    (s : SessionState) (htc : m.turnComplete = false) (had : m.audioDuration = none) :
    (onmessage now ct m s).transcriptionHistory = s.transcriptionHistory := by
  rcases m with ⟨it, ot, tc, ad⟩
  subst htc
  subst had
  cases it <;> cases ot <;> rfl

/-- A whole sequence of such messages leaves the committed log
untouched. -/
lemma runMessages_history (now : Nat) (ct : ℚ) (msgs : List LiveServerMessage)
    (s : SessionState)
    (h : ∀ m ∈ msgs, m.turnComplete = false ∧ m.audioDuration = none) :
    (runMessages now ct s msgs).transcriptionHistory = s.transcriptionHistory := by
  induction msgs generalizing s with
  | nil => rfl
  | cons m ms ih =>
      have hm := h m (List.mem_cons_self m ms)
      have hrest : ∀ m' ∈ ms, m'.turnComplete = false ∧ m'.audioDuration = none :=
        fun m' hm' => h m' (List.mem_cons_of_mem _ hm')
      show (runMessages now ct (onmessage now ct m s) ms).transcriptionHistory
        = s.transcriptionHistory
      rw [ih (onmessage now ct m s) hrest,
        onmessage_transcript_only now ct m s hm.1 hm.2]

/-- C1: after any sequence of partial overwrite updates followed by a
turn-complete, the log has gained at most one student entry (exactly when
the student buffer was non-empty) then at most one tutor entry (exactly
when the tutor buffer was non-empty), in that order; both partial buffers
are empty afterwards; the log is otherwise unchanged. -/
theorem C1_turn_commit (now : Nat) (ct : ℚ) (s₀ : SessionState)
    (msgs : List LiveServerMessage)
    (hmsgs : ∀ m ∈ msgs, m.turnComplete = false ∧ m.audioDuration = none) :
    (onmessage now ct turnCompleteMsg (runMessages now ct s₀ msgs)).currentUserTranscript
        = "" ∧
    (onmessage now ct turnCompleteMsg (runMessages now ct s₀ msgs)).currentGeminiTranscript
        = "" ∧
    ∃ stu tut : List TranscriptionEntry,
      stu.length ≤ 1 ∧ tut.length ≤ 1 ∧
      (stu = [] ↔ (runMessages now ct s₀ msgs).currentUserTranscript = "") ∧
      (tut = [] ↔ (runMessages now ct s₀ msgs).currentGeminiTranscript = "") ∧
      (∀ e ∈ stu, e.speaker = Speaker.user ∧
        e.text = (runMessages now ct s₀ msgs).currentUserTranscript) ∧
      (∀ e ∈ tut, e.speaker = Speaker.gemini ∧
        e.text = (runMessages now ct s₀ msgs).currentGeminiTranscript) ∧
      (onmessage now ct turnCompleteMsg (runMessages now ct s₀ msgs)).transcriptionHistory
        = s₀.transcriptionHistory ++ stu ++ tut := by
  have hhist : (runMessages now ct s₀ msgs).transcriptionHistory = s₀.transcriptionHistory :=
    runMessages_history now ct msgs s₀ hmsgs
  set s := runMessages now ct s₀ msgs with hs
  refine ⟨rfl, rfl, ?_⟩
  by_cases hu : s.currentUserTranscript = "" <;> by_cases hg : s.currentGeminiTranscript = ""
  · exact ⟨[], [], by simp, by simp, by simp [hu], by simp [hg], by simp, by simp,
      by simp [onmessage, turnCompleteMsg, commitTurn, hu, hg, hhist]⟩
  · exact ⟨[], [⟨"gemini-" ++ toString now, Speaker.gemini, s.currentGeminiTranscript⟩],
      by simp, by simp, by simp [hu], by simp [hg], by simp, by simp,
      by simp [onmessage, turnCompleteMsg, commitTurn, hu, hg, hhist]⟩
  · exact ⟨[⟨"user-" ++ toString now, Speaker.user, s.currentUserTranscript⟩], [],
      by simp, by simp, by simp [hu], by simp [hg], by simp, by simp,
      by simp [onmessage, turnCompleteMsg, commitTurn, hu, hg, hhist]⟩
  · exact ⟨[⟨"user-" ++ toString now, Speaker.user, s.currentUserTranscript⟩],
      [⟨"gemini-" ++ toString now, Speaker.gemini, s.currentGeminiTranscript⟩],
      by simp, by simp, by simp [hu], by simp [hg], by simp, by simp,
      by simp [onmessage, turnCompleteMsg, commitTurn, hu, hg, hhist]⟩

/-- C1 witness: a student overwrite then a tutor overwrite then
turn-complete, from the pristine state. -/
theorem C1_turn_commit_witness :
    (onmessage 0 0 turnCompleteMsg (runMessages 0 0 initialState
        [⟨some "hi", none, false, none⟩, ⟨none, some "hello", false, none⟩])).currentUserTranscript
      = "" ∧
    (onmessage 0 0 turnCompleteMsg (runMessages 0 0 initialState
        [⟨some "hi", none, false, none⟩, ⟨none, some "hello", false, none⟩])).currentGeminiTranscript
      = "" ∧
    ∃ stu tut : List TranscriptionEntry,
      stu.length ≤ 1 ∧ tut.length ≤ 1 ∧
      (stu = [] ↔ (runMessages 0 0 initialState
        [⟨some "hi", none, false, none⟩, ⟨none, some "hello", false, none⟩]).currentUserTranscript = "") ∧
      (tut = [] ↔ (runMessages 0 0 initialState
        [⟨some "hi", none, false, none⟩, ⟨none, some "hello", false, none⟩]).currentGeminiTranscript = "") ∧
      (∀ e ∈ stu, e.speaker = Speaker.user ∧
        e.text = (runMessages 0 0 initialState
          [⟨some "hi", none, false, none⟩, ⟨none, some "hello", false, none⟩]).currentUserTranscript) ∧
      (∀ e ∈ tut, e.speaker = Speaker.gemini ∧
        e.text = (runMessages 0 0 initialState
          [⟨some "hi", none, false, none⟩, ⟨none, some "hello", false, none⟩]).currentGeminiTranscript) ∧
      (onmessage 0 0 turnCompleteMsg (runMessages 0 0 initialState
        [⟨some "hi", none, false, none⟩, ⟨none, some "hello", false, none⟩])).transcriptionHistory
        = initialState.transcriptionHistory ++ stu ++ tut :=
  C1_turn_commit 0 0 initialState
    [⟨some "hi", none, false, none⟩, ⟨none, some "hello", false, none⟩] (by decide)

/-- Scheduling an audio chunk does not change the playback context
ref. -/
lemma onmessage_audio_outputCtx (now : Nat) (ct d : ℚ) (s : SessionState) :
    (onmessage now ct (audioMsg d) s).outputAudioContext = s.outputAudioContext := by
  simp [onmessage, audioMsg, scheduleAudio, apply_ite SessionState.outputAudioContext]

/-- With the playback context present, scheduling an audio chunk advances
the cursor to the chosen start time plus the chunk's duration. -/
lemma onmessage_audio_nextStartTime (now : Nat) (ct d : ℚ) (s : SessionState)
    (hctx : s.outputAudioContext.isSome = true) :
    (onmessage now ct (audioMsg d) s).nextStartTime = scheduledStart ct s + d := by
  simp [onmessage, audioMsg, scheduleAudio, hctx]

/-- C3: for every sequence of arriving audio buffers (nonnegative
durations) handled with the playback context present, each buffer starts
at `max(clock, cursor)` and the cursor advances by its duration, so every
scheduled start time is at least the previous start time plus the
previous duration: no overlapping playback. -/
theorem C3_no_overlap (now : Nat) (s : SessionState) (chunks : List (ℚ × ℚ))
    (hctx : s.outputAudioContext.isSome = true) (hdur : ∀ c ∈ chunks, 0 ≤ c.2) :
    List.Chain' (fun a b : ℚ × ℚ => a.1 + a.2 ≤ b.1) (scheduledPairs now s chunks) := by
  induction chunks generalizing s with
  | nil => simp [scheduledPairs]
  | cons c rest ih =>
      obtain ⟨ct, d⟩ := c
      have hctx' : (onmessage now ct (audioMsg d) s).outputAudioContext.isSome = true := by
        rw [onmessage_audio_outputCtx]; exact hctx
      have hdrest : ∀ c ∈ rest, 0 ≤ c.2 := fun c hc => hdur c (List.mem_cons_of_mem _ hc)
      have htail := ih (onmessage now ct (audioMsg d) s) hctx' hdrest
      cases rest with
      | nil => simp [scheduledPairs]
      | cons c' rest' =>
          obtain ⟨ct', d'⟩ := c'
          rw [scheduledPairs, scheduledPairs, List.chain'_cons]
          refine ⟨?_, ?_⟩
          · show scheduledStart ct s + d ≤ scheduledStart ct' (onmessage now ct (audioMsg d) s)
            have hrw : scheduledStart ct' (onmessage now ct (audioMsg d) s)
                = max ct' (scheduledStart ct s + d) := by
              rw [scheduledStart, onmessage_audio_nextStartTime now ct d s hctx]
            rw [hrw]
            exact le_max_right _ _
          · rw [scheduledPairs] at htail
            exact htail

/-- C3 witness: two buffers of durations 1 and 2 arriving at clock
readings 0 and 3, from the connected initial state. -/
theorem C3_no_overlap_witness :
    List.Chain' (fun a b : ℚ × ℚ => a.1 + a.2 ≤ b.1)
      (scheduledPairs 0 ctxState [(0, 1), (3, 2)]) :=
  C3_no_overlap 0 ctxState [(0, 1), (3, 2)] rfl (by decide)

/-- `listIncludes` agrees with mathematical substring occurrence. -/
lemma listIncludes_iff (pat l : List Char) : listIncludes pat l = true ↔ pat <:+: l := by
  induction l with
  | nil => simp [listIncludes, List.isEmpty_iff]
  | cons c cs ih => simp [listIncludes, Bool.or_eq_true, List.isPrefixOf_iff_prefix, ih,
      List.infix_cons_iff]

/-- The handler's parting-word test is exactly: some fixed parting phrase
occurs as a substring of the lower-cased tutor text. -/
lemma any_parting_iff (t : String) :
    (PARTING_WORDS.any fun word => strIncludes (lowerStr t) word) = true ↔
      ∃ w ∈ PARTING_WORDS, w.data <:+: (lowerStr t).data := by
  simp [List.any_eq_true, strIncludes, listIncludes_iff]

/-- C5: committing a turn schedules lesson termination after the fixed
2000 ms delay — never invoking the lesson-ended callback immediately —
exactly when the lower-cased committed tutor text contains one of the
fixed parting phrases as a substring; "Great job today, goodbye!"
contains one (case-insensitively), "Let's continue" does not. -/
theorem C5_parting_words (now : Nat) (ct : ℚ) (s : SessionState) :
    ((∃ w ∈ PARTING_WORDS, w.data <:+: (lowerStr s.currentGeminiTranscript).data) →
      (onmessage now ct turnCompleteMsg s).pendingEnds
        = s.pendingEnds
            ++ [(2000, (onmessage now ct turnCompleteMsg s).transcriptionHistory)]) ∧
    ((¬ ∃ w ∈ PARTING_WORDS, w.data <:+: (lowerStr s.currentGeminiTranscript).data) →
      (onmessage now ct turnCompleteMsg s).pendingEnds = s.pendingEnds) ∧
    (onmessage now ct turnCompleteMsg s).onEndCalls = s.onEndCalls ∧
    (∃ w ∈ PARTING_WORDS, w.data <:+: (lowerStr "Great job today, goodbye!").data) ∧
    (¬ ∃ w ∈ PARTING_WORDS, w.data <:+: (lowerStr "Let's continue").data) := by
  refine ⟨?_, ?_, rfl, ?_, ?_⟩
  · intro h
    have hb := (any_parting_iff s.currentGeminiTranscript).mpr h
    simp [onmessage, turnCompleteMsg, commitTurn, hb]
  · intro h
    have hb : (PARTING_WORDS.any fun word =>
        strIncludes (lowerStr s.currentGeminiTranscript) word) = false := by
      cases hb' : PARTING_WORDS.any fun word =>
          strIncludes (lowerStr s.currentGeminiTranscript) word
      · rfl
      · exact absurd ((any_parting_iff _).mp hb') h
    simp [onmessage, turnCompleteMsg, commitTurn, hb]
  · exact (any_parting_iff "Great job today, goodbye!").mp (by decide)
  · intro h
    exact absurd ((any_parting_iff "Let's continue").mpr h) (by decide)

/-- C5 witness: committing the "goodbye" tutor turn schedules the 2000 ms
end timer; committing an empty tutor turn schedules nothing. -/
theorem C5_parting_words_witness :
    (onmessage 0 0 turnCompleteMsg goodbyeState).pendingEnds
      = goodbyeState.pendingEnds
          ++ [(2000, (onmessage 0 0 turnCompleteMsg goodbyeState).transcriptionHistory)] ∧
    (onmessage 0 0 turnCompleteMsg initialState).pendingEnds = initialState.pendingEnds := by
  refine ⟨(C5_parting_words 0 0 goodbyeState).1 ?_, (C5_parting_words 0 0 initialState).2.1 ?_⟩
  · exact (any_parting_iff "goodbye").mp (by decide)
  · intro h
    exact absurd ((any_parting_iff "").mpr h) (by decide)

end EnglishLesson
